import Mathlib

/-!
Verification development for the forensic image-authenticity analyzer
(`backend/image_analysis.py`, class `PILForensicAnalyzer`).

The numeric signal-processing layer (PIL / numpy: re-encoding, FFT,
filtering, hashing) is treated as the producer of scalar measurements and
detector outcomes; everything downstream of those measurements — metadata
rule firing, ELA band interpretation, pixel/forensic indicator lists, the
risk aggregation, clamping, compression-profile matching and the
compression normalization discount — is embedded as executable Lean
definitions over exact rationals and integers.

Python `float` arithmetic in the scoring path only ever multiplies an
integer score in [-300, 300] by 0.4 / 0.5 / 0.65 and truncates with
`int(...)`; over that domain IEEE double evaluation agrees exactly with
rational truncation toward zero, which is how it is modelled here
(`py_mul_trunc`).  Threshold comparisons (`15*0.9 = 13.5`, `40*0.95 = 38.0`)
are exact in doubles, so rationals model them faithfully.
-/

namespace ImageAnalysis

/-- Python's `needle in haystack` substring test on strings. -/
def pyIn (needle haystack : String) : Bool :=
  let ns := needle.toList
  let hs := haystack.toList
  (List.range (hs.length + 1)).any fun i => ns.isPrefixOf (hs.drop i)

/-- Metadata anomaly indicators emitted by `_analyze_metadata`.  Payload
strings carry the interpolated part of the emitted message (software tag,
camera model, container format). -/
inductive MetaAnomaly where
  | no_exif_data : MetaAnomaly
  | editing_software (software : String) : MetaAnomaly
  | unusual_camera_model (model : String) : MetaAnomaly
  | metadata_modified : MetaAnomaly
  | gps_data_present : MetaAnomaly
  | unusual_format (fmt : String) : MetaAnomaly
deriving DecidableEq, Repr

/-- Pixel-level anomaly indicators emitted by `_analyze_pixel_anomalies`. -/
inductive PixelAnomaly where
  | ela_anomaly (message : String) : PixelAnomaly
  | noise_inconsistency (ratio : ℚ) : PixelAnomaly
  | color_channel_low_corr (corr : ℚ) : PixelAnomaly
  | edge_consistency : PixelAnomaly
  | high_quantization (avg variance : ℚ) : PixelAnomaly
  | uniform_quantization_low_var (avg variance : ℚ) : PixelAnomaly
deriving DecidableEq, Repr

/-- Forensic indicators emitted by `_deep_forensic_inspection`.  The
`unclassified` constructor stands for any indicator string carrying none of
the recognized tag substrings (`CLONE`, `NOISE`, `COMPRESSION`,
`COLOR_TEMPERATURE`, `RESAMPLING`, `MEDIAN_FILTER`); it is what the final
`else: score += 8` branch of `_calculate_risk_score` handles.  The emitted
indicator strings each contain exactly one of the tags, matching the
source's `elif` substring chain one-to-one on these kinds. -/
inductive ForensicIndicator where
  | clone_detected (regions : ℕ) : ForensicIndicator
  | resampling_detected : ForensicIndicator
  | median_filter_detected : ForensicIndicator
  | noise_inconsistency : ForensicIndicator
  | compression_anomalies : ForensicIndicator
  | color_temperature_inconsistency : ForensicIndicator
  | unclassified (s : String) : ForensicIndicator
deriving DecidableEq, Repr

/-- ELA interpretation levels (`_interpret_ela_with_context`). -/
inductive ElaLevel where
  | high_risk | low_risk | medium_risk | normal
deriving DecidableEq, Repr

/-- The dict returned by `_interpret_ela_with_context`. -/
structure ElaInterp where
  level : ElaLevel
  message : String
  risk_boost : ℤ
deriving DecidableEq, Repr

/-- The compression-adjustment note recorded by the normalization step,
structured instead of the formatted Python string: `adjusted s p m`
stands for `"Adjusted to s (p% of original) due to likely m"`. -/
inductive Adjustment where
  | adjusted (new_score : ℤ) (percent : ℤ) (message : String) : Adjustment
  | no_adjustment : Adjustment
  | no_original_image : Adjustment
deriving DecidableEq, Repr

/-- The analyzer's `self.results` dict, with the fields the scoring
pipeline reads and writes.  `analysis_timestamp` is set once at
construction (`__init__`) and never touched by the analysis itself. -/
@[ext]
structure Results where
  metadata_anomalies : List MetaAnomaly
  pixel_anomalies : List PixelAnomaly
  forensic_indicators : List ForensicIndicator
  ela_variance : ℚ
  ela_interpretation : Option ElaInterp
  noise_ratio : ℚ
  color_channel_corr : ℚ
  risk_score : ℤ
  compression_adjustment : Option Adjustment
  likely_source : Option String
  analysis_timestamp : String
deriving DecidableEq, Repr

/-- The fresh `self.results` produced by `__init__`. -/
def init_results (timestamp : String) : Results where
  metadata_anomalies := []
  pixel_anomalies := []
  forensic_indicators := []
  ela_variance := 0
  ela_interpretation := none
  noise_ratio := 0
  color_channel_corr := 0
  risk_score := 0
  compression_adjustment := none
  likely_source := none
  analysis_timestamp := timestamp

/-! ### Metadata analysis (`_analyze_metadata`)

EXIF data is modelled as the list of `(tag, str(value))` entries of the
`getexif()` dict (`none` when `getexif()` raised).  Python truthiness of
the dict and of individual tag values (empty string falsy) is modelled
explicitly. -/

/-- The editing-tool substrings checked against the lowered software tag. -/
def editing_tools : List String := ["photoshop", "gimp", "paint", "affinity", "corel"]

/-- Dict lookup `exif_data.get(tag)`. -/
def exif_get (entries : List (ℕ × String)) (tag : ℕ) : Option String :=
  (entries.find? fun kv => kv.1 = tag).map Prod.snd

/-- Python truthiness of an optional string value. -/
def truthy : Option String → Bool
  | none => false
  | some s => s ≠ ""

/-- `_analyze_metadata`: the ordered anomaly list for a given EXIF dict and
container format. -/
def analyze_metadata (exif_data : Option (List (ℕ × String))) (format : String) :
    List MetaAnomaly :=
  let anomalies : List MetaAnomaly :=
    match exif_data with
    | none => [.no_exif_data]
    | some entries =>
      if entries.isEmpty then [.no_exif_data]
      else
        let software := exif_get entries 305
        let a1 : List MetaAnomaly :=
          match software with
          | some s =>
            if s ≠ "" && editing_tools.any (fun tool => pyIn tool s.toLower)
            then [.editing_software s] else []
          | none => []
        let model : Option String :=
          match exif_get entries 272 with
          | some s => if s = "" then exif_get entries 271 else some s
          | none => exif_get entries 271
        let a2 : List MetaAnomaly :=
          match model with
          | some m =>
            if m ≠ "" then
              if pyIn "iphone" m.toLower || pyIn "canon" m.toLower || pyIn "nikon" m.toLower
              then [] else [.unusual_camera_model m]
            else []
          | none => []
        let original_time := exif_get entries 36867
        let modify_time := exif_get entries 306
        let a3 : List MetaAnomaly :=
          if truthy original_time && truthy modify_time && original_time ≠ modify_time
          then [.metadata_modified] else []
        let gps_keys := entries.filter fun kv =>
          pyIn "GPS" (toString kv.1) || pyIn "GPS" kv.2
        let a4 : List MetaAnomaly :=
          if !gps_keys.isEmpty then [.gps_data_present] else []
        a1 ++ a2 ++ a3 ++ a4
  anomalies ++
    (if format ∉ ["JPEG", "PNG", "TIFF"] then [.unusual_format format] else [])

/-! ### ELA interpretation and pixel analysis -/

/-- `_interpret_ela_with_context`, with the class's default thresholds
(`very_low = 15, low = 40, high = 600, very_high = 1000`; the constructor
never overrides them). -/
def interpret_ela_with_context (ela_variance : ℚ) (is_web_image : Bool)
    (total_pixels : ℕ) : ElaInterp :=
  let relax := is_web_image || total_pixels < 1000000
  let very_low : ℚ := if relax then 15 * (9/10) else 15
  let low : ℚ := if relax then 40 * (19/20) else 40
  let high : ℚ := 600
  let very_high : ℚ := 1000
  if ela_variance < very_low then
    ⟨.high_risk, "EXTREMELY_LOW_ELA: possible synthetic or over-smoothed image.", 12⟩
  else if ela_variance < low then
    ⟨.low_risk, "LOW_ELA: likely recompressed/web image or slight processing.", 1⟩
  else if ela_variance > very_high then
    ⟨.high_risk, "VERY_HIGH_ELA: strong manipulation signal (multiple edits).", 12⟩
  else if ela_variance > high then
    ⟨.medium_risk, "HIGH_ELA_VARIANCE: inconsistent compression patterns.", 6⟩
  else
    ⟨.normal, "Normal compression pattern", 0⟩

/-- `_analyze_quantization_tables` on the concatenated table values
(an empty or absent dict yields `none`).  `np.mean` / `np.var` are the
population mean and variance, exact over ℚ. -/
def analyze_quantization_tables (all_vals : Option (List ℚ)) : Option PixelAnomaly :=
  match all_vals with
  | none => none
  | some vals =>
    if vals.isEmpty then none
    else
      let n : ℚ := vals.length
      let avg_q := vals.sum / n
      let var_q := (vals.map fun v => (v - avg_q) ^ 2).sum / n
      if avg_q > 40 then some (.high_quantization avg_q var_q)
      else if var_q < 20 && avg_q > 20 then some (.uniform_quantization_low_var avg_q var_q)
      else none

/-- The scalar measurements that the PIL/numpy layer hands to
`_analyze_pixel_anomalies` for one image. -/
structure PixelInput where
  ela_variance : ℚ
  is_web_image : Bool
  total_pixels : ℕ
  noise_ratio : ℚ
  color_channel_corr : ℚ
  edge_diff : ℚ
  quantization_vals : Option (List ℚ)
deriving DecidableEq, Repr

/-- `_analyze_pixel_anomalies`: builds the pixel anomaly list and records
the metrics, with default thresholds `noise_ratio_max = 3`,
`color_corr_low = 0.85`, `edge_consistency_diff = 20`. -/
def analyze_pixel_anomalies (s : PixelInput) (r : Results) : Results :=
  let ela_risk := interpret_ela_with_context s.ela_variance s.is_web_image s.total_pixels
  let a1 : List PixelAnomaly :=
    if ela_risk.level ≠ .normal then [.ela_anomaly ela_risk.message] else []
  let a2 : List PixelAnomaly :=
    if s.noise_ratio > 3 then [.noise_inconsistency s.noise_ratio] else []
  let a3 : List PixelAnomaly :=
    if s.color_channel_corr < 17/20 then [.color_channel_low_corr s.color_channel_corr] else []
  let a4 : List PixelAnomaly :=
    if s.edge_diff > 20 then [.edge_consistency] else []
  let a5 : List PixelAnomaly := (analyze_quantization_tables s.quantization_vals).toList
  { r with
    ela_variance := s.ela_variance
    ela_interpretation := some ela_risk
    noise_ratio := s.noise_ratio
    color_channel_corr := s.color_channel_corr
    pixel_anomalies := a1 ++ a2 ++ a3 ++ a4 ++ a5 }

/-! ### Deep forensic inspection -/

/-- The detector outcomes computed by the PIL/numpy layer for
`_deep_forensic_inspection`. -/
structure ForensicDetections where
  clone_regions : List ((ℕ × ℕ) × (ℕ × ℕ))
  resampling : Bool
  median_filter : Bool
  noise_patterns_ok : Bool
  compression_artifacts : Bool
  color_temperature : Bool
deriving DecidableEq, Repr

/-- `_deep_forensic_inspection`: the ordered forensic indicator list. -/
def deep_forensic_inspection (d : ForensicDetections) : List ForensicIndicator :=
  (if !d.clone_regions.isEmpty then [.clone_detected d.clone_regions.length] else []) ++
  (if d.resampling then [.resampling_detected] else []) ++
  (if d.median_filter then [.median_filter_detected] else []) ++
  (if !d.noise_patterns_ok then [.noise_inconsistency] else []) ++
  (if d.compression_artifacts then [.compression_anomalies] else []) ++
  (if d.color_temperature then [.color_temperature_inconsistency] else [])

/-! ### Clone detection (`_detect_clone_regions`)

The block perceptual hash (md5 of the LANCZOS-downsampled grayscale block)
is a parameter: the grid walk, the first-seen hash dict, the distance test
and the pair cap are embedded literally.  `math.hypot(dx, dy) > t` on
integer inputs agrees with the exact test `dx^2 + dy^2 > t^2` (the squared
distances attainable here are never close enough to `t^2` for double
rounding to flip the comparison, and exact squares take exact square
roots). -/

/-- Python `range(0, stop, step)` for `step > 0`. -/
def py_range (stop step : ℕ) : List ℕ :=
  List.range' 0 ((stop + step - 1) / step) step

/-- The row-major block top-left coordinates walked by
`_detect_clone_regions` (y outer, x inner). -/
def block_coords (width height block_size : ℕ) : List (ℕ × ℕ) :=
  (py_range (max 1 (height - block_size)) (max 1 block_size)).flatMap fun y =>
    (py_range (max 1 (width - block_size)) (max 1 block_size)).map fun x => (x, y)

/-- The distance test `math.hypot(x - prev_x, y - prev_y) > block_size * min_blocks`. -/
def far_apart (block_size min_blocks : ℕ) (p c : ℕ × ℕ) : Bool :=
  ((block_size * min_blocks : ℤ))^2 < ((c.1 : ℤ) - p.1)^2 + ((c.2 : ℤ) - p.2)^2

/-- One iteration of the block loop: look the hash up in the first-seen
dict, record a clone pair if the collision is distant, otherwise remember
first sightings. -/
def clone_step (block_size min_blocks : ℕ) (hash : ℕ × ℕ → ℕ)
    (st : List (ℕ × (ℕ × ℕ)) × List ((ℕ × ℕ) × (ℕ × ℕ))) (c : ℕ × ℕ) :
    List (ℕ × (ℕ × ℕ)) × List ((ℕ × ℕ) × (ℕ × ℕ)) :=
  let h := hash c
  match st.1.find? (fun e => e.1 = h) with
  | some e =>
    if far_apart block_size min_blocks e.2 c then (st.1, st.2 ++ [(e.2, c)]) else st
  | none => (st.1 ++ [(h, c)], st.2)

/-- `_detect_clone_regions` (pairs are capped at 10). -/
def detect_clone_regions (hash : ℕ × ℕ → ℕ) (width height block_size min_blocks : ℕ) :
    List ((ℕ × ℕ) × (ℕ × ℕ)) :=
  (((block_coords width height block_size).foldl
      (clone_step block_size min_blocks hash) ([], [])).2).take 10

/-! ### Compression profiles and normalization -/

/-- One entry of the `compression_profiles` table. -/
structure CompressionProfile where
  name : String
  range_lo : ℚ
  range_hi : ℚ
  typical_w : ℕ
  typical_h : ℕ
  message : String
deriving DecidableEq, Repr

/-- The profile table of `_detect_compression_profile`, in dict insertion
order. -/
def compression_profiles : List CompressionProfile :=
  [⟨"whatsapp_low", 10, 50, 1280, 1280, "WhatsApp/Low Quality Compression"⟩,
   ⟨"instagram", 80, 180, 1080, 1080, "Instagram Compression"⟩,
   ⟨"facebook", 120, 280, 2048, 2048, "Facebook Compression"⟩,
   ⟨"twitter", 60, 160, 1200, 675, "Twitter Compression"⟩,
   ⟨"original_camera", 150, 450, 4000, 3000, "Original Camera JPEG"⟩]

/-- A match record `{profile, message, confidence, size_match}`. -/
structure CompressionMatch where
  profile : String
  message : String
  confidence : String
  size_match : Bool
deriving DecidableEq, Repr

/-- `_detect_compression_profile` for an image of pixel size `w × h`.
`abs(size - typical) <= typical * 0.5` on integer sizes is the exact
integer test `2 * |size - typical| ≤ typical` (halving is exact in
doubles). -/
def detect_compression_profile (w h : ℕ) (ela_variance : ℚ) : List CompressionMatch :=
  compression_profiles.filterMap fun p =>
    if p.range_lo ≤ ela_variance ∧ ela_variance ≤ p.range_hi then
      let size_match : Bool :=
        2 * ((w : ℤ) - p.typical_w).natAbs ≤ p.typical_w ∧
        2 * ((h : ℤ) - p.typical_h).natAbs ≤ p.typical_h
      some ⟨p.name, p.message, if size_match then "HIGH" else "MEDIUM", size_match⟩
    else none

/-- The benign recompression channels checked by
`_apply_compression_normalization`. -/
def social_media_profiles : List String :=
  ["whatsapp_low", "instagram", "facebook", "twitter"]

/-- The hard edit-indicator test: `any(tag in forensic for tag in [...])`
over the joined forensic indicator strings, resolved on indicator kinds
(each emitted string carries exactly its own tag). -/
def is_hard_indicator : ForensicIndicator → Bool
  | .clone_detected _ => true
  | .color_temperature_inconsistency => true
  | .noise_inconsistency => true
  | .resampling_detected => true
  | .median_filter_detected => true
  | .compression_anomalies => false
  | .unclassified _ => false

/-- Python `int(score * f)` for a non-negative rational factor `f = num/den`:
truncation toward zero.  Exact-rational evaluation agrees with the
double-precision evaluation for every integer score in `[-300, 300]` and
the three factors 0.4, 0.5, 0.65 used by the normalization. -/
def py_mul_trunc (score : ℤ) (num den : ℕ) : ℤ :=
  if 0 ≤ score then ((score.toNat * num) / den : ℕ)
  else -(((((-score).toNat) * num) / den : ℕ))

/-- The variance-tiered reduction factor, as a `(numerator, denominator)`
pair: 0.4 / 0.5 / 0.65. -/
def reduction_factor (ela_var : ℚ) : ℕ × ℕ :=
  if ela_var < 100 then (2, 5) else if ela_var < 200 then (1, 2) else (13, 20)

/-- `_apply_compression_normalization` for an original image of size
`w × h`.  `int(reduction*100)` is 40 / 50 / 65, i.e. `num * 100 / den`. -/
def apply_compression_normalization (w h : ℕ) (r : Results) : Results :=
  let ela_var := r.ela_variance
  let score := r.risk_score
  let profiles := detect_compression_profile w h ela_var
  let likely_social_media := profiles.any fun p => social_media_profiles.contains p.profile
  let has_edit_indicators := r.forensic_indicators.any is_hard_indicator
  if likely_social_media && !has_edit_indicators then
    let red := reduction_factor ela_var
    let adjusted_score := py_mul_trunc score red.1 red.2
    let new_score : ℤ := max 0 (min 100 adjusted_score)
    let chosen_profile := profiles.headD ⟨"unknown", "social_media_compressed", "MEDIUM", false⟩
    { r with
      risk_score := new_score
      compression_adjustment :=
        some (.adjusted new_score ((red.1 * 100) / red.2 : ℕ) chosen_profile.message)
      likely_source := some chosen_profile.profile }
  else
    { r with
      compression_adjustment := some .no_adjustment
      likely_source := if r.likely_source.isNone then some "unknown" else r.likely_source }

/-! ### Risk aggregation (`_calculate_risk_score`) -/

/-- The metadata `if/elif` weight chain, resolved on kinds (the emitted
strings each start with their own tag; `UNUSUAL_CAMERA_MODEL`,
`METADATA_MODIFIED` and `GPS_DATA_PRESENT` all fall to the final
`else: score += 5`). -/
def meta_score : MetaAnomaly → ℤ
  | .no_exif_data => 2
  | .unusual_format _ => 3
  | .editing_software _ => 12
  | .unusual_camera_model _ => 5
  | .metadata_modified => 5
  | .gps_data_present => 5

/-- The forensic `if/elif` weight chain, in source order. -/
def forensic_score : ForensicIndicator → ℤ
  | .clone_detected _ => 20
  | .noise_inconsistency => 10
  | .compression_anomalies => 6
  | .color_temperature_inconsistency => 10
  | .resampling_detected => 15
  | .median_filter_detected => 12
  | .unclassified _ => 8

/-- The raw (pre-clamp) sum of `_calculate_risk_score`: metadata weights,
a flat 6 per pixel anomaly, forensic weights, the ELA risk boost
(`.get('ela_interpretation', {})` defaulting the boost to 0), and the +5
extremity bonus for `ela_var < 15 or ela_var > 1000`. -/
def raw_score (r : Results) : ℤ :=
  (r.metadata_anomalies.map meta_score).sum
  + 6 * r.pixel_anomalies.length
  + (r.forensic_indicators.map forensic_score).sum
  + ((r.ela_interpretation.map ElaInterp.risk_boost).getD 0)
  + (if r.ela_variance < 15 ∨ r.ela_variance > 1000 then 5 else 0)

/-- `_calculate_risk_score`: clamp the raw sum to at most 100, then hand
the state to the compression normalization (or record its absence when no
original image is available). -/
def calculate_risk_score (original_image : Option (ℕ × ℕ)) (r : Results) : Results :=
  let r1 := { r with risk_score := min 100 (raw_score r) }
  match original_image with
  | some wh => apply_compression_normalization wh.1 wh.2 r1
  | none =>
    { r1 with
      compression_adjustment := some .no_original_image
      likely_source := if r1.likely_source.isNone then some "unknown" else r1.likely_source }

/-! ### The full pipeline (`analyze_image` body) and report tier -/

/-- Everything the PIL/numpy measurement layer extracts from one decoded
image: a deterministic function of the image bytes (plus URL-vs-file
source flag folded into `pixel.is_web_image`). -/
structure AnalyzerInput where
  exif_data : Option (List (ℕ × String))
  format : String
  pixel : PixelInput
  detections : ForensicDetections
  width : ℕ
  height : ℕ
deriving DecidableEq, Repr

/-- The `analyze_image` pipeline body: metadata, pixel and forensic
analysis followed by scoring and normalization, threaded through
`self.results`. -/
def run_pipeline (i : AnalyzerInput) (r : Results) : Results :=
  let r1 := { r with metadata_anomalies := analyze_metadata i.exif_data i.format }
  let r2 := analyze_pixel_anomalies i.pixel r1
  let r3 := { r2 with forensic_indicators := deep_forensic_inspection i.detections }
  calculate_risk_score (some (i.width, i.height)) r3

/-- The pipeline state just before the compression-normalization phase:
the three analyzer outputs recorded and the raw sum clamped —
`run_pipeline` is exactly `apply_compression_normalization` after this. -/
def pipeline_mid (i : AnalyzerInput) (r : Results) : Results :=
  let r1 := { r with metadata_anomalies := analyze_metadata i.exif_data i.format }
  let r2 := analyze_pixel_anomalies i.pixel r1
  let r3 := { r2 with forensic_indicators := deep_forensic_inspection i.detections }
  { r3 with risk_score := min 100 (raw_score r3) }

/-- The risk tier computed in `generate_report`. -/
def risk_level (score : ℤ) : String :=
  if score > 70 then "HIGH" else if score > 35 then "MEDIUM" else "LOW"

/-- A result with the timestamp field blanked, for comparisons modulo the
analysis timestamp. -/
def strip_timestamp (r : Results) : Results :=
  { r with analysis_timestamp := "" }

/-! ### Concrete sample states used by witnesses and counterexamples -/

/-- A clean state: full benign EXIF led to no anomalies at all, ELA
variance 45 on a 1280×1280 image (interpretation band: normal). -/
def clean_state : Results where
  metadata_anomalies := []
  pixel_anomalies := []
  forensic_indicators := []
  ela_variance := 45
  ela_interpretation := some (interpret_ela_with_context 45 false 1638400)
  noise_ratio := 1
  color_channel_corr := 1
  risk_score := 0
  compression_adjustment := none
  likely_source := none
  analysis_timestamp := "2024-01-01T00:00:00"

/-- `clean_state` whose only anomaly is a missing metadata block. -/
def no_exif_state : Results :=
  { clean_state with metadata_anomalies := [.no_exif_data] }

/-- A state carrying ten editing-software hits, pushing the raw sum past
the clamp. -/
def heavy_edit_state : Results :=
  { clean_state with
    metadata_anomalies := List.replicate 10 (.editing_software "Adobe Photoshop") }

/-- A measurement bundle for a benign 1280×1280 JPEG with ELA variance 45
and no detector firing. -/
def benign_input : AnalyzerInput where
  exif_data := some [(305, "Apple iOS"), (272, "iPhone 12")]
  format := "JPEG"
  pixel :=
    { ela_variance := 45
      is_web_image := false
      total_pixels := 1638400
      noise_ratio := 1
      color_channel_corr := 1
      edge_diff := 1
      quantization_vals := none }
  detections :=
    { clone_regions := []
      resampling := false
      median_filter := false
      noise_patterns_ok := true
      compression_artifacts := false
      color_temperature := false }
  width := 1280
  height := 1280

/-! ### Helper lemmas -/

theorem meta_score_nonneg (m : MetaAnomaly) : 0 ≤ meta_score m := by
  cases m <;> norm_num [meta_score]

theorem forensic_score_nonneg (f : ForensicIndicator) : 0 ≤ forensic_score f := by
  cases f <;> norm_num [forensic_score]

theorem risk_boost_nonneg (v : ℚ) (web : Bool) (px : ℕ) :
    0 ≤ (interpret_ela_with_context v web px).risk_boost := by
  simp only [interpret_ela_with_context]
  split_ifs <;> simp

theorem raw_score_nonneg (r : Results)
    (hb : 0 ≤ (r.ela_interpretation.map ElaInterp.risk_boost).getD 0) :
    0 ≤ raw_score r := by
  unfold raw_score
  have h1 : 0 ≤ (r.metadata_anomalies.map meta_score).sum := by
    refine List.sum_nonneg ?_
    intro x hx
    obtain ⟨m, _, rfl⟩ := List.mem_map.1 hx
    exact meta_score_nonneg m
  have h2 : 0 ≤ (r.forensic_indicators.map forensic_score).sum := by
    refine List.sum_nonneg ?_
    intro x hx
    obtain ⟨f, _, rfl⟩ := List.mem_map.1 hx
    exact forensic_score_nonneg f
  have h3 : (0:ℤ) ≤ 6 * r.pixel_anomalies.length := by positivity
  have h4 : (0:ℤ) ≤ if r.ela_variance < 15 ∨ r.ela_variance > 1000 then 5 else 0 := by
    split <;> norm_num
  linarith

/-- The condition guarding the compression normalization branch. -/
def normalization_applies (w h : ℕ) (r : Results) : Bool :=
  ((detect_compression_profile w h r.ela_variance).any fun p =>
    social_media_profiles.contains p.profile) && !(r.forensic_indicators.any is_hard_indicator)

theorem apply_norm_eq_pos (w h : ℕ) (r : Results)
    (hc : normalization_applies w h r = true) :
    apply_compression_normalization w h r =
      { r with
        risk_score := max 0 (min 100 (py_mul_trunc r.risk_score
          (reduction_factor r.ela_variance).1 (reduction_factor r.ela_variance).2))
        compression_adjustment := some (.adjusted
          (max 0 (min 100 (py_mul_trunc r.risk_score
            (reduction_factor r.ela_variance).1 (reduction_factor r.ela_variance).2)))
          (((reduction_factor r.ela_variance).1 * 100) / (reduction_factor r.ela_variance).2 : ℕ)
          ((detect_compression_profile w h r.ela_variance).headD
            ⟨"unknown", "social_media_compressed", "MEDIUM", false⟩).message)
        likely_source := some ((detect_compression_profile w h r.ela_variance).headD
          ⟨"unknown", "social_media_compressed", "MEDIUM", false⟩).profile } := by
  simp only [normalization_applies] at hc
  simp only [apply_compression_normalization, hc, if_true]

theorem apply_norm_eq_neg (w h : ℕ) (r : Results)
    (hc : normalization_applies w h r = false) :
    apply_compression_normalization w h r =
      { r with
        compression_adjustment := some .no_adjustment
        likely_source := if r.likely_source.isNone then some "unknown" else r.likely_source } := by
  simp only [normalization_applies] at hc
  simp only [apply_compression_normalization, hc]
  rfl

theorem apply_norm_bounds (w h : ℕ) (r : Results)
    (h0 : 0 ≤ r.risk_score) (h100 : r.risk_score ≤ 100) :
    0 ≤ (apply_compression_normalization w h r).risk_score ∧
      (apply_compression_normalization w h r).risk_score ≤ 100 := by
  cases hc : normalization_applies w h r
  · rw [apply_norm_eq_neg w h r hc]
    exact ⟨h0, h100⟩
  · rw [apply_norm_eq_pos w h r hc]
    exact ⟨le_max_left _ _, max_le (by norm_num) (min_le_left _ _)⟩

theorem calc_bounds (img : Option (ℕ × ℕ)) (r : Results)
    (hb : 0 ≤ (r.ela_interpretation.map ElaInterp.risk_boost).getD 0) :
    0 ≤ (calculate_risk_score img r).risk_score ∧
      (calculate_risk_score img r).risk_score ≤ 100 := by
  have hr : 0 ≤ raw_score r := raw_score_nonneg r hb
  unfold calculate_risk_score
  match img with
  | some wh =>
    exact apply_norm_bounds wh.1 wh.2 _ (le_min (by norm_num) hr) (min_le_left _ _)
  | none =>
    exact ⟨le_min (by norm_num) hr, min_le_left _ _⟩

theorem calc_eq_some (w h : ℕ) (r : Results) :
    calculate_risk_score (some (w, h)) r =
      apply_compression_normalization w h { r with risk_score := min 100 (raw_score r) } := rfl

theorem analyze_pixel_interp (s : PixelInput) (r : Results) :
    (analyze_pixel_anomalies s r).ela_interpretation =
      some (interpret_ela_with_context s.ela_variance s.is_web_image s.total_pixels) := rfl

theorem py_mul_trunc_le (s : ℤ) (hs : s ≤ 100) (n d : ℕ) (hd : (100 * n) / d ≤ 65) :
    py_mul_trunc s n d ≤ 65 := by
  unfold py_mul_trunc
  split
  · rename_i h0
    have h1 : s.toNat ≤ 100 := by omega
    have h3 : (s.toNat * n) / d ≤ (100 * n) / d :=
      Nat.div_le_div_right (Nat.mul_le_mul_right n h1)
    exact_mod_cast le_trans h3 hd
  · have h4 : (0:ℤ) ≤ (((-s).toNat * n) / d : ℕ) := by positivity
    linarith

/-! ### Claims -/

/-- C1: for every analyzed image, the final risk score — after the raw
sum, the clamp to at most 100, and any compression normalization — is an
integer in [0, 100], and every individual severity contribution added
during the raw sum (the per-kind metadata weights, the flat pixel weight
6, the per-kind forensic weights, the ELA risk boost, and the extremity
bonus 5) is non-negative. -/
theorem C1_risk_score_in_range :
    (∀ m, 0 ≤ meta_score m) ∧ ((0:ℤ) ≤ 6) ∧ (∀ f, 0 ≤ forensic_score f) ∧
    (∀ v web px, 0 ≤ (interpret_ela_with_context v web px).risk_boost) ∧ ((0:ℤ) ≤ 5) ∧
    ∀ (i : AnalyzerInput) (r : Results),
      0 ≤ (run_pipeline i r).risk_score ∧ (run_pipeline i r).risk_score ≤ 100 := by
  refine ⟨meta_score_nonneg, by norm_num, forensic_score_nonneg, risk_boost_nonneg,
    by norm_num, ?_⟩
  intro i r
  refine calc_bounds _ _ ?_
  simp only [analyze_pixel_interp, Option.map_some', Option.getD_some]
  exact risk_boost_nonneg _ _ _

/-- C4 counterexample: the metadata weight chain gives editing-software 12
but the default (other) metadata kinds 5, so editing-software is NOT below
the other kinds; and the forensic chain gives compression 6 but the
unclassified fallback 8, so compression is NOT above unclassified. -/
theorem C4_counterexample :
    meta_score (.editing_software "Adobe Photoshop 2024") = 12 ∧
    meta_score .gps_data_present = 5 ∧
    ¬ meta_score (.editing_software "Adobe Photoshop 2024") < meta_score .gps_data_present ∧
    forensic_score .compression_anomalies = 6 ∧
    forensic_score (.unclassified "UNKNOWN_SIGNAL") = 8 ∧
    ¬ forensic_score .compression_anomalies > forensic_score (.unclassified "UNKNOWN_SIGNAL") := by
  refine ⟨rfl, rfl, by decide, rfl, rfl, by decide⟩

/-- C4 amended: the fixed per-kind weights satisfy
no-metadata (2) < unusual-format (3) < other metadata kinds (5) <
editing-software (12), and clone (20) > resampling (15) >
median-filter (12) > color-temperature (10) = noise (10) >
unclassified (8) > compression (6). -/
theorem C4_weight_orderings :
    ∀ (fmt sw model other : String) (n : ℕ),
      meta_score .no_exif_data < meta_score (.unusual_format fmt) ∧
      meta_score (.unusual_format fmt) < meta_score (.unusual_camera_model model) ∧
      meta_score (.unusual_format fmt) < meta_score .metadata_modified ∧
      meta_score (.unusual_format fmt) < meta_score .gps_data_present ∧
      meta_score (.unusual_camera_model model) < meta_score (.editing_software sw) ∧
      meta_score .metadata_modified < meta_score (.editing_software sw) ∧
      meta_score .gps_data_present < meta_score (.editing_software sw) ∧
      forensic_score .resampling_detected < forensic_score (.clone_detected n) ∧
      forensic_score .median_filter_detected < forensic_score .resampling_detected ∧
      forensic_score .color_temperature_inconsistency < forensic_score .median_filter_detected ∧
      forensic_score .color_temperature_inconsistency = forensic_score .noise_inconsistency ∧
      forensic_score (.unclassified other) < forensic_score .noise_inconsistency ∧
      forensic_score .compression_anomalies < forensic_score (.unclassified other) := by
  intro fmt sw model other n
  norm_num [meta_score, forensic_score]

/-- C5 counterexample: a GPS_DATA_PRESENT metadata indicator is NOT
score-neutral — it falls into the default metadata branch and adds 5 to
the raw sum. -/
theorem C5_counterexample :
    raw_score { clean_state with metadata_anomalies := [.gps_data_present] } = 5 ∧
    raw_score clean_state = 0 ∧
    raw_score { clean_state with metadata_anomalies := [.gps_data_present] } ≠
      raw_score clean_state := by decide

/-- C5 amended: when positioning tags are present in the EXIF entries the
analyzer emits GPS_DATA_PRESENT, and that indicator contributes the
default metadata weight 5 to the raw score (it is not score-neutral). -/
theorem C5_gps_indicator_weight (entries : List (ℕ × String)) (format : String)
    (hne : entries.isEmpty = false)
    (hgps : (entries.filter fun kv =>
      pyIn "GPS" (toString kv.1) || pyIn "GPS" kv.2).isEmpty = false) :
    MetaAnomaly.gps_data_present ∈ analyze_metadata (some entries) format ∧
    ∀ r : Results,
      raw_score { r with metadata_anomalies := .gps_data_present :: r.metadata_anomalies } =
        raw_score r + 5 := by
  constructor
  · simp only [analyze_metadata, hne, hgps, Bool.false_eq_true, if_false,
      Bool.not_false, if_true, List.mem_append]
    left
    simp [List.mem_append]
  · intro r
    simp only [raw_score, List.map_cons, List.sum_cons, meta_score]
    ring

/-- Witness for `C5_gps_indicator_weight` at a concrete EXIF entry list. -/
theorem C5_gps_indicator_weight_witness :
    ([((34853:ℕ), "GPS IFD pointer")] : List (ℕ × String)).isEmpty = false ∧
    ((([((34853:ℕ), "GPS IFD pointer")] : List (ℕ × String)).filter fun kv =>
      pyIn "GPS" (toString kv.1) || pyIn "GPS" kv.2).isEmpty = false) ∧
    MetaAnomaly.gps_data_present ∈
      analyze_metadata (some [(34853, "GPS IFD pointer")]) "JPEG" ∧
    raw_score { clean_state with
        metadata_anomalies := .gps_data_present :: clean_state.metadata_anomalies } =
      raw_score clean_state + 5 :=
  ⟨by decide, by decide,
    (C5_gps_indicator_weight [(34853, "GPS IFD pointer")] "JPEG" (by decide) (by decide)).1,
    (C5_gps_indicator_weight [(34853, "GPS IFD pointer")] "JPEG" (by decide) (by decide)).2
      clean_state⟩

/-- C10: whenever compression normalization applies, the final risk score
is at most 65: the raw sum is clamped to 100 first, and the weakest
discount multiplier is 0.65, truncating to at most 65. -/
theorem C10_normalized_score_le_65 (w h : ℕ) (r : Results)
    (hc : normalization_applies w h r = true) :
    (calculate_risk_score (some (w, h)) r).risk_score ≤ 65 := by
  have hc' : normalization_applies w h { r with risk_score := min 100 (raw_score r) } = true := hc
  rw [calc_eq_some, apply_norm_eq_pos _ _ _ hc']
  have hs : min 100 (raw_score r) ≤ 100 := min_le_left _ _
  have hred : (100 * (reduction_factor r.ela_variance).1) /
      (reduction_factor r.ela_variance).2 ≤ 65 := by
    unfold reduction_factor
    split_ifs <;> norm_num
  have hmul := py_mul_trunc_le _ hs _ _ hred
  exact max_le (by norm_num) (le_trans (min_le_right _ _) hmul)

/-- Witness for `C10_normalized_score_le_65`: a heavily edited state whose
raw sum exceeds the clamp still normalizes down to at most 65 (here 40). -/
theorem C10_normalized_score_le_65_witness :
    normalization_applies 1280 1280 heavy_edit_state = true ∧
    (calculate_risk_score (some (1280, 1280)) heavy_edit_state).risk_score ≤ 65 :=
  ⟨by decide, C10_normalized_score_le_65 1280 1280 heavy_edit_state (by decide)⟩

/-- C2: the clamped raw aggregate is monotone non-decreasing under adding
indicators (list inclusion with identical metrics), and the pipeline is
exactly raw-clamped-sum first, compression discount second. -/
theorem C2_monotone_and_phase_order (r R : Results)
    (hM : r.metadata_anomalies.Sublist R.metadata_anomalies)
    (hP : r.pixel_anomalies.Sublist R.pixel_anomalies)
    (hF : r.forensic_indicators.Sublist R.forensic_indicators)
    (hv : r.ela_variance = R.ela_variance)
    (hi : r.ela_interpretation = R.ela_interpretation) :
    min 100 (raw_score r) ≤ min 100 (raw_score R) ∧
    ∀ (w h : ℕ) (s : Results),
      calculate_risk_score (some (w, h)) s =
        apply_compression_normalization w h { s with risk_score := min 100 (raw_score s) } := by
  constructor
  · have h1 : (r.metadata_anomalies.map meta_score).sum ≤
        (R.metadata_anomalies.map meta_score).sum := by
      refine List.Sublist.sum_le_sum (hM.map meta_score) ?_
      intro a ha
      obtain ⟨m, _, rfl⟩ := List.mem_map.1 ha
      exact meta_score_nonneg m
    have h2 : (r.forensic_indicators.map forensic_score).sum ≤
        (R.forensic_indicators.map forensic_score).sum := by
      refine List.Sublist.sum_le_sum (hF.map forensic_score) ?_
      intro a ha
      obtain ⟨f, _, rfl⟩ := List.mem_map.1 ha
      exact forensic_score_nonneg f
    have h3 : (6:ℤ) * r.pixel_anomalies.length ≤ 6 * R.pixel_anomalies.length := by
      have := hP.length_le
      omega
    unfold raw_score
    rw [hv, hi]
    exact min_le_min le_rfl (by linarith)
  · intro w h s
    exact calc_eq_some w h s

/-- Witness for `C2_monotone_and_phase_order` on concrete sublists. -/
theorem C2_monotone_and_phase_order_witness :
    clean_state.metadata_anomalies.Sublist no_exif_state.metadata_anomalies ∧
    min 100 (raw_score clean_state) ≤ min 100 (raw_score no_exif_state) ∧
    calculate_risk_score (some (1280, 1280)) clean_state =
      apply_compression_normalization 1280 1280
        { clean_state with risk_score := min 100 (raw_score clean_state) } :=
  ⟨by decide,
    (C2_monotone_and_phase_order clean_state no_exif_state (by decide) (by decide) (by decide)
      rfl rfl).1,
    (C2_monotone_and_phase_order clean_state no_exif_state (by decide) (by decide) (by decide)
      rfl rfl).2 1280 1280 clean_state⟩

/-- C3: starting from a fresh state, compression normalization fires iff
some matched profile is a benign recompression channel and no hard
forensic indicator is present; when it fires, the score becomes the
variance-tiered truncated multiple (0.4 / 0.5 / 0.65) of the clamped
total, re-clamped to [0, 100], with the first matched profile recorded as
likely source in the adjustment note; otherwise the score is unchanged,
the note records no adjustment, and the likely source is unknown. -/
theorem C3_normalization_behavior (w h : ℕ) (r : Results)
    (hfresh : r.likely_source = none) :
    (((detect_compression_profile w h r.ela_variance).any fun p =>
          social_media_profiles.contains p.profile) = true ∧
        r.forensic_indicators.any is_hard_indicator = false →
      (apply_compression_normalization w h r).risk_score =
        max 0 (min 100 (py_mul_trunc r.risk_score
          (if r.ela_variance < 100 then 2 else if r.ela_variance < 200 then 1 else 13)
          (if r.ela_variance < 100 then 5 else if r.ela_variance < 200 then 2 else 20))) ∧
      ∃ p, (detect_compression_profile w h r.ela_variance).head? = some p ∧
        (apply_compression_normalization w h r).likely_source = some p.profile ∧
        (apply_compression_normalization w h r).compression_adjustment =
          some (.adjusted (apply_compression_normalization w h r).risk_score
            (if r.ela_variance < 100 then 40 else if r.ela_variance < 200 then 50 else 65)
            p.message)) ∧
    (¬(((detect_compression_profile w h r.ela_variance).any fun p =>
          social_media_profiles.contains p.profile) = true ∧
        r.forensic_indicators.any is_hard_indicator = false) →
      (apply_compression_normalization w h r).risk_score = r.risk_score ∧
      (apply_compression_normalization w h r).compression_adjustment =
        some .no_adjustment ∧
      (apply_compression_normalization w h r).likely_source = some "unknown") := by
  cases hna : normalization_applies w h r with
  | false =>
    have hcond : ¬(((detect_compression_profile w h r.ela_variance).any fun p =>
        social_media_profiles.contains p.profile) = true ∧
        r.forensic_indicators.any is_hard_indicator = false) := by
      simp only [normalization_applies, Bool.and_eq_true, Bool.not_eq_true'] at hna
      intro hc
      rw [hc.1, hc.2] at hna
      simp at hna
    refine ⟨fun hc => absurd hc hcond, fun _ => ?_⟩
    rw [apply_norm_eq_neg w h r hna]
    simp [hfresh]
  | true =>
    have hcond : ((detect_compression_profile w h r.ela_variance).any fun p =>
        social_media_profiles.contains p.profile) = true ∧
        r.forensic_indicators.any is_hard_indicator = false := by
      simpa only [normalization_applies, Bool.and_eq_true, Bool.not_eq_true'] using hna
    refine ⟨fun _ => ?_, fun hc => absurd hcond hc⟩
    rw [apply_norm_eq_pos w h r hna]
    have hne : detect_compression_profile w h r.ela_variance ≠ [] := by
      intro hnil
      rw [hnil] at hcond
      simp at hcond
    obtain ⟨p, t, hpt⟩ := List.exists_cons_of_ne_nil hne
    constructor
    · simp only [reduction_factor]
      split_ifs <;> rfl
    · refine ⟨p, by rw [hpt]; rfl, ?_, ?_⟩
      · rw [hpt]
        rfl
      · rw [hpt]
        simp only [List.headD_cons, reduction_factor]
        split_ifs <;> norm_num

/-- Witness for `C3_normalization_behavior` at a fresh benign state. -/
theorem C3_normalization_behavior_witness :
    heavy_edit_state.likely_source = none ∧
    (((detect_compression_profile 1280 1280 heavy_edit_state.ela_variance).any fun p =>
        social_media_profiles.contains p.profile) = true ∧
      heavy_edit_state.forensic_indicators.any is_hard_indicator = false) ∧
    (apply_compression_normalization 1280 1280 heavy_edit_state).risk_score =
      max 0 (min 100 (py_mul_trunc heavy_edit_state.risk_score
        (if heavy_edit_state.ela_variance < 100 then 2
         else if heavy_edit_state.ela_variance < 200 then 1 else 13)
        (if heavy_edit_state.ela_variance < 100 then 5
         else if heavy_edit_state.ela_variance < 200 then 2 else 20))) :=
  ⟨rfl, ⟨by decide, by decide⟩,
    ((C3_normalization_behavior 1280 1280 heavy_edit_state rfl).1 ⟨by decide, by decide⟩).1⟩

theorem ela_bands_facts (vl lo v : ℚ)
    (hvl : 15 * (9/10) ≤ vl) (hlo : 40 * (19/20) ≤ lo)
    (h : (if v < vl then
            (⟨.high_risk, "EXTREMELY_LOW_ELA: possible synthetic or over-smoothed image.", 12⟩ : ElaInterp)
          else if v < lo then
            ⟨.low_risk, "LOW_ELA: likely recompressed/web image or slight processing.", 1⟩
          else if v > 1000 then
            ⟨.high_risk, "VERY_HIGH_ELA: strong manipulation signal (multiple edits).", 12⟩
          else if v > 600 then
            ⟨.medium_risk, "HIGH_ELA_VARIANCE: inconsistent compression patterns.", 6⟩
          else ⟨.normal, "Normal compression pattern", 0⟩).level = .normal) :
    (if v < vl then
       (⟨.high_risk, "EXTREMELY_LOW_ELA: possible synthetic or over-smoothed image.", 12⟩ : ElaInterp)
     else if v < lo then
       ⟨.low_risk, "LOW_ELA: likely recompressed/web image or slight processing.", 1⟩
     else if v > 1000 then
       ⟨.high_risk, "VERY_HIGH_ELA: strong manipulation signal (multiple edits).", 12⟩
     else if v > 600 then
       ⟨.medium_risk, "HIGH_ELA_VARIANCE: inconsistent compression patterns.", 6⟩
     else ⟨.normal, "Normal compression pattern", 0⟩).risk_boost = 0 ∧
    ¬(v < 15 ∨ v > 1000) := by
  split_ifs at h ⊢ with h1 h2 h3 h4 <;> simp_all
  linarith

theorem ela_normal_facts (v : ℚ) (web : Bool) (px : ℕ)
    (h : (interpret_ela_with_context v web px).level = .normal) :
    (interpret_ela_with_context v web px).risk_boost = 0 ∧ ¬(v < 15 ∨ v > 1000) := by
  by_cases hrel : (web || decide (px < 1000000)) = true
  · have e : interpret_ela_with_context v web px =
        (if v < 15 * (9/10) then
           (⟨.high_risk, "EXTREMELY_LOW_ELA: possible synthetic or over-smoothed image.", 12⟩ : ElaInterp)
         else if v < 40 * (19/20) then
           ⟨.low_risk, "LOW_ELA: likely recompressed/web image or slight processing.", 1⟩
         else if v > 1000 then
           ⟨.high_risk, "VERY_HIGH_ELA: strong manipulation signal (multiple edits).", 12⟩
         else if v > 600 then
           ⟨.medium_risk, "HIGH_ELA_VARIANCE: inconsistent compression patterns.", 6⟩
         else ⟨.normal, "Normal compression pattern", 0⟩) := by
      simp [interpret_ela_with_context, hrel]
    rw [e] at h ⊢
    exact ela_bands_facts _ _ v le_rfl le_rfl h
  · have e : interpret_ela_with_context v web px =
        (if v < 15 then
           (⟨.high_risk, "EXTREMELY_LOW_ELA: possible synthetic or over-smoothed image.", 12⟩ : ElaInterp)
         else if v < 40 then
           ⟨.low_risk, "LOW_ELA: likely recompressed/web image or slight processing.", 1⟩
         else if v > 1000 then
           ⟨.high_risk, "VERY_HIGH_ELA: strong manipulation signal (multiple edits).", 12⟩
         else if v > 600 then
           ⟨.medium_risk, "HIGH_ELA_VARIANCE: inconsistent compression patterns.", 6⟩
         else ⟨.normal, "Normal compression pattern", 0⟩) := by
      simp [interpret_ela_with_context, hrel]
    rw [e] at h ⊢
    exact ela_bands_facts _ _ v (by norm_num) (by norm_num) h

theorem risk_level_low (s : ℤ) (h : s ≤ 35) : risk_level s = "LOW" := by
  unfold risk_level
  rw [if_neg (by omega), if_neg (by omega)]

/-- C8: when the only anomaly is a missing metadata block (and the ELA
interpretation is in the normal band), the final score is at most 2 —
single-digit — and the derived tier is LOW. -/
theorem C8_metadata_absence_low_tier (img : Option (ℕ × ℕ)) (r : Results)
    (v : ℚ) (web : Bool) (px : ℕ)
    (hm : r.metadata_anomalies = [.no_exif_data])
    (hp : r.pixel_anomalies = [])
    (hf : r.forensic_indicators = [])
    (hv : r.ela_variance = v)
    (hi : r.ela_interpretation = some (interpret_ela_with_context v web px))
    (hnormal : (interpret_ela_with_context v web px).level = .normal) :
    0 ≤ (calculate_risk_score img r).risk_score ∧
    (calculate_risk_score img r).risk_score ≤ 2 ∧
    risk_level (calculate_risk_score img r).risk_score = "LOW" := by
  obtain ⟨hboost, hext⟩ := ela_normal_facts v web px hnormal
  have hraw : raw_score r = 2 := by
    unfold raw_score
    rw [hm, hp, hf, hv, hi]
    simp [meta_score, hboost, if_neg hext]
  have hmin : min 100 (raw_score r) = 2 := by
    rw [hraw]
    norm_num
  have hbase : 0 ≤ (calculate_risk_score img r).risk_score ∧
      (calculate_risk_score img r).risk_score ≤ 2 := by
    cases img with
    | none =>
      unfold calculate_risk_score
      simp only [hmin]
      norm_num
    | some wh =>
      obtain ⟨w, h⟩ := wh
      rw [calc_eq_some, hmin]
      cases hna : normalization_applies w h { r with risk_score := 2 } with
      | false =>
        rw [apply_norm_eq_neg _ _ _ hna]
        norm_num
      | true =>
        rw [apply_norm_eq_pos _ _ _ hna]
        have htr : py_mul_trunc (2:ℤ)
            (reduction_factor ({ r with risk_score := 2 } : Results).ela_variance).1
            (reduction_factor ({ r with risk_score := 2 } : Results).ela_variance).2 ≤ 2 := by
          unfold reduction_factor
          split_ifs <;> decide
        refine ⟨le_max_left _ _, max_le (by norm_num) (le_trans (min_le_right _ _) htr)⟩
  exact ⟨hbase.1, hbase.2, risk_level_low _ (by linarith [hbase.2])⟩

/-- Witness for `C8_metadata_absence_low_tier` at the concrete
metadata-stripped state. -/
theorem C8_metadata_absence_low_tier_witness :
    (interpret_ela_with_context 45 false 1638400).level = .normal ∧
    0 ≤ (calculate_risk_score (some (1280, 1280)) no_exif_state).risk_score ∧
    (calculate_risk_score (some (1280, 1280)) no_exif_state).risk_score ≤ 2 ∧
    risk_level (calculate_risk_score (some (1280, 1280)) no_exif_state).risk_score = "LOW" :=
  ⟨by decide,
    C8_metadata_absence_low_tier (some (1280, 1280)) no_exif_state 45 false 1638400
      rfl rfl rfl rfl rfl (by decide)⟩

theorem detect_profile_whatsapp_facts (w h : ℕ) (v : ℚ) (hlo : 10 ≤ v) (hhi : v ≤ 50) :
    ((detect_compression_profile w h v).headD
      ⟨"unknown", "social_media_compressed", "MEDIUM", false⟩).profile = "whatsapp_low" ∧
    ((detect_compression_profile w h v).any fun p =>
      social_media_profiles.contains p.profile) = true := by
  constructor
  · simp only [detect_compression_profile, compression_profiles, List.filterMap_cons]
    rw [if_pos (⟨hlo, hhi⟩ : (10:ℚ) ≤ v ∧ v ≤ 50)]
    rfl
  · simp only [detect_compression_profile, compression_profiles, List.filterMap_cons]
    rw [if_pos (⟨hlo, hhi⟩ : (10:ℚ) ≤ v ∧ v ≤ 50)]
    simp [social_media_profiles]

/-- C6 counterexample: a state inside the whatsapp_low band with matching
dimensions and no hard forensic indicators whose raw clamped sum is 0 —
the final score equals the raw sum (both 0) instead of being strictly
below it. -/
theorem C6_counterexample :
    ((10:ℚ) ≤ clean_state.ela_variance ∧ clean_state.ela_variance ≤ 50) ∧
    2 * ((1280:ℤ) - 1280).natAbs ≤ 1280 ∧
    clean_state.forensic_indicators.any is_hard_indicator = false ∧
    min 100 (raw_score clean_state) = 0 ∧
    (calculate_risk_score (some (1280, 1280)) clean_state).risk_score = 0 ∧
    ¬((calculate_risk_score (some (1280, 1280)) clean_state).risk_score <
        min 100 (raw_score clean_state)) := by decide

/-- C6 amended: with error-map variance in the whatsapp_low band,
dimensions within ±50% of 1280×1280, and no hard forensic indicators, the
likely source is the whatsapp_low profile and the final score is strictly
below the pre-normalization clamped sum whenever that sum is positive
(when it is zero, the final score is also zero). -/
theorem C6_whatsapp_discount (w h : ℕ) (r : Results)
    (hlo : (10:ℚ) ≤ r.ela_variance) (hhi : r.ela_variance ≤ 50)
    (hw : 2 * ((w:ℤ) - 1280).natAbs ≤ 1280) (hh : 2 * ((h:ℤ) - 1280).natAbs ≤ 1280)
    (hhard : r.forensic_indicators.any is_hard_indicator = false) :
    (calculate_risk_score (some (w, h)) r).likely_source = some "whatsapp_low" ∧
    (min 100 (raw_score r) = 0 → (calculate_risk_score (some (w, h)) r).risk_score = 0) ∧
    (0 < min 100 (raw_score r) →
      (calculate_risk_score (some (w, h)) r).risk_score < min 100 (raw_score r)) := by
  obtain ⟨hhead, hany⟩ := detect_profile_whatsapp_facts w h r.ela_variance hlo hhi
  have hna : normalization_applies w h { r with risk_score := min 100 (raw_score r) } = true := by
    simp only [normalization_applies]
    have hv : ({ r with risk_score := min 100 (raw_score r) } : Results).ela_variance =
        r.ela_variance := rfl
    have hfor : ({ r with risk_score := min 100 (raw_score r) } : Results).forensic_indicators =
        r.forensic_indicators := rfl
    rw [hv, hfor, hhard, hany]
    rfl
  have hrf : reduction_factor r.ela_variance = (2, 5) := by
    unfold reduction_factor
    rw [if_pos (by linarith : r.ela_variance < 100)]
  rw [calc_eq_some, apply_norm_eq_pos _ _ _ hna]
  refine ⟨?_, ?_, ?_⟩
  · show some ((detect_compression_profile w h r.ela_variance).headD
      ⟨"unknown", "social_media_compressed", "MEDIUM", false⟩).profile = some "whatsapp_low"
    rw [hhead]
  · intro h0
    show max 0 (min 100 (py_mul_trunc (min 100 (raw_score r))
      (reduction_factor r.ela_variance).1 (reduction_factor r.ela_variance).2)) = 0
    rw [hrf, h0]
    decide
  · intro hpos
    show max 0 (min 100 (py_mul_trunc (min 100 (raw_score r))
      (reduction_factor r.ela_variance).1 (reduction_factor r.ela_variance).2)) <
      min 100 (raw_score r)
    rw [hrf]
    set s := min 100 (raw_score r) with hs
    have hs0 : 0 ≤ s := le_of_lt hpos
    have htr : py_mul_trunc s 2 5 = ((s.toNat * 2) / 5 : ℕ) := by
      unfold py_mul_trunc
      rw [if_pos hs0]
    have hn1 : 1 ≤ s.toNat := by omega
    have hlt : (s.toNat * 2) / 5 < s.toNat := by
      rw [Nat.div_lt_iff_lt_mul (by norm_num)]
      omega
    have hlt' : py_mul_trunc s 2 5 < s := by
      rw [htr]
      have : ((s.toNat : ℤ)) = s := Int.toNat_of_nonneg hs0
      omega
    have hge : 0 ≤ py_mul_trunc s 2 5 := by
      rw [htr]
      positivity
    calc max 0 (min 100 (py_mul_trunc s 2 5)) ≤ max 0 (py_mul_trunc s 2 5) :=
          max_le_max le_rfl (min_le_right _ _)
      _ = py_mul_trunc s 2 5 := max_eq_right hge
      _ < s := hlt'

/-- Witness for `C6_whatsapp_discount`: the metadata-stripped state has a
positive raw sum (2) and normalizes to 0 < 2, sourced to whatsapp_low. -/
theorem C6_whatsapp_discount_witness :
    ((10:ℚ) ≤ no_exif_state.ela_variance ∧ no_exif_state.ela_variance ≤ 50 ∧
      no_exif_state.forensic_indicators.any is_hard_indicator = false ∧
      0 < min 100 (raw_score no_exif_state)) ∧
    (calculate_risk_score (some (1280, 1280)) no_exif_state).likely_source =
      some "whatsapp_low" ∧
    (calculate_risk_score (some (1280, 1280)) no_exif_state).risk_score <
      min 100 (raw_score no_exif_state) :=
  ⟨by decide,
    (C6_whatsapp_discount 1280 1280 no_exif_state (by decide) (by decide) (by decide)
      (by decide) (by decide)).1,
    (C6_whatsapp_discount 1280 1280 no_exif_state (by decide) (by decide) (by decide)
      (by decide) (by decide)).2.2 (by decide)⟩

theorem run_pipeline_eq_mid (i : AnalyzerInput) (r : Results) :
    run_pipeline i r =
      apply_compression_normalization i.width i.height (pipeline_mid i r) := rfl

theorem normalization_applies_mid (i : AnalyzerInput) (r r' : Results) :
    normalization_applies i.width i.height (pipeline_mid i r) =
      normalization_applies i.width i.height (pipeline_mid i r') := rfl

theorem run_pipeline_ts (i : AnalyzerInput) (r : Results) :
    (run_pipeline i r).analysis_timestamp = r.analysis_timestamp := by
  rw [run_pipeline_eq_mid]
  cases hc : normalization_applies i.width i.height (pipeline_mid i r) with
  | true =>
    rw [apply_norm_eq_pos _ _ _ hc]
    rfl
  | false =>
    rw [apply_norm_eq_neg _ _ _ hc]
    rfl

theorem run_pipeline_ls (i : AnalyzerInput) (r : Results)
    (hc : normalization_applies i.width i.height (pipeline_mid i r) = false) :
    (run_pipeline i r).likely_source =
      if r.likely_source.isNone then some "unknown" else r.likely_source := by
  rw [run_pipeline_eq_mid, apply_norm_eq_neg _ _ _ hc]
  rfl

/-- C9: the scoring pipeline is a deterministic function of the extracted
measurements: two runs from fresh states agree on every field except the
analysis timestamp, and re-running the pipeline over its own output (the
persisting `self.results` dict) changes nothing. -/
theorem C9_determinism_idempotence (i : AnalyzerInput) (r : Results) (t1 t2 : String) :
    strip_timestamp (run_pipeline i (init_results t1)) =
      strip_timestamp (run_pipeline i (init_results t2)) ∧
    run_pipeline i (run_pipeline i r) = run_pipeline i r := by
  constructor
  · unfold strip_timestamp
    rw [run_pipeline_eq_mid, run_pipeline_eq_mid]
    cases hc : normalization_applies i.width i.height (pipeline_mid i (init_results t1)) with
    | true =>
      have hc2 : normalization_applies i.width i.height (pipeline_mid i (init_results t2)) =
          true := (normalization_applies_mid i (init_results t2) (init_results t1)).trans hc
      rw [apply_norm_eq_pos _ _ _ hc, apply_norm_eq_pos _ _ _ hc2]
      apply Results.ext <;> rfl
    | false =>
      have hc2 : normalization_applies i.width i.height (pipeline_mid i (init_results t2)) =
          false := (normalization_applies_mid i (init_results t2) (init_results t1)).trans hc
      rw [apply_norm_eq_neg _ _ _ hc, apply_norm_eq_neg _ _ _ hc2]
      apply Results.ext <;> rfl
  · have hmid := run_pipeline_eq_mid i r
    rw [run_pipeline_eq_mid i (run_pipeline i r), run_pipeline_eq_mid i r]
    cases hc : normalization_applies i.width i.height (pipeline_mid i r) with
    | true =>
      have hc2 : normalization_applies i.width i.height
          (pipeline_mid i (apply_compression_normalization i.width i.height
            (pipeline_mid i r))) = true := by
        rw [← hmid]
        exact (normalization_applies_mid i (run_pipeline i r) r).trans hc
      rw [apply_norm_eq_pos _ _ _ hc2, apply_norm_eq_pos _ _ _ hc]
      apply Results.ext <;> rfl
    | false =>
      have hc2 : normalization_applies i.width i.height
          (pipeline_mid i (apply_compression_normalization i.width i.height
            (pipeline_mid i r))) = false := by
        rw [← hmid]
        exact (normalization_applies_mid i (run_pipeline i r) r).trans hc
      rw [apply_norm_eq_neg _ _ _ hc2, apply_norm_eq_neg _ _ _ hc]
      apply Results.ext <;> first
        | rfl
        | (show (if (if r.likely_source.isNone = true then some "unknown"
                else r.likely_source).isNone = true
              then some "unknown"
              else (if r.likely_source.isNone = true then some "unknown"
                else r.likely_source)) =
            (if r.likely_source.isNone = true then some "unknown" else r.likely_source)
           cases r.likely_source <;> rfl)

theorem py_range_len (stop step : ℕ) :
    (py_range stop step).length = (stop + step - 1) / step := by
  simp [py_range]

theorem mem_py_range (stop step m : ℕ) :
    m ∈ py_range stop step ↔ ∃ i, i < (stop + step - 1) / step ∧ m = step * i := by
  simp [py_range, List.mem_range']

theorem py_range_pos (stop step : ℕ) (hstop : 0 < stop) (hstep : 0 < step) :
    0 < (stop + step - 1) / step := by
  have h1 : step ≤ stop + step - 1 := by omega
  have h2 := Nat.div_le_div_right (c := step) h1
  rw [Nat.div_self hstep] at h2
  omega

theorem py_range_cons (stop step : ℕ) (hstop : 0 < stop) (hstep : 0 < step) :
    py_range stop step = 0 :: List.range' step ((stop + step - 1) / step - 1) step := by
  unfold py_range
  have h := py_range_pos stop step hstop hstep
  conv_lhs => rw [show (stop + step - 1) / step = ((stop + step - 1) / step - 1) + 1 by omega,
    List.range'_succ]
  rw [Nat.zero_add]

theorem mem_py_range_le (stop step m : ℕ) (hm : m ∈ py_range stop step) :
    m ≤ step * ((stop + step - 1) / step - 1) := by
  rw [mem_py_range] at hm
  obtain ⟨i, hi, rfl⟩ := hm
  exact Nat.mul_le_mul_left step (by omega)

theorem max_mem_py_range (stop step : ℕ) (hstop : 0 < stop) (hstep : 0 < step) :
    step * ((stop + step - 1) / step - 1) ∈ py_range stop step := by
  rw [mem_py_range]
  exact ⟨_, by have := py_range_pos stop step hstop hstep; omega, rfl⟩

theorem mem_block_coords (w h bs : ℕ) (c : ℕ × ℕ) :
    c ∈ block_coords w h bs ↔
      c.1 ∈ py_range (max 1 (w - bs)) (max 1 bs) ∧
      c.2 ∈ py_range (max 1 (h - bs)) (max 1 bs) := by
  obtain ⟨x, y⟩ := c
  simp only [block_coords, List.mem_flatMap, List.mem_map, Prod.mk.injEq]
  constructor
  · rintro ⟨y', hy', x', hx', rfl, rfl⟩
    exact ⟨hx', hy'⟩
  · rintro ⟨hx, hy⟩
    exact ⟨y, hy, x, hx, rfl, rfl⟩

theorem block_coords_cons (w h bs : ℕ) :
    ∃ rest, block_coords w h bs = (0, 0) :: rest := by
  unfold block_coords
  rw [py_range_cons (max 1 (h - bs)) (max 1 bs) (by omega) (by omega),
    py_range_cons (max 1 (w - bs)) (max 1 bs) (by omega) (by omega),
    List.flatMap_cons, List.map_cons, List.cons_append]
  exact ⟨_, rfl⟩

theorem clone_fold_const (bs mb k : ℕ) (hash : ℕ × ℕ → ℕ) (hk : ∀ c, hash c = k)
    (p0 : ℕ × ℕ) (acc : List ((ℕ × ℕ) × (ℕ × ℕ))) (cs : List (ℕ × ℕ)) :
    cs.foldl (clone_step bs mb hash) ([(k, p0)], acc) =
      ([(k, p0)], acc ++ (cs.filter fun c => far_apart bs mb p0 c).map fun c => (p0, c)) := by
  induction cs generalizing acc with
  | nil => simp
  | cons c cs ih =>
    rw [List.foldl_cons]
    have hstep : clone_step bs mb hash ([(k, p0)], acc) c =
        if far_apart bs mb p0 c then ([(k, p0)], acc ++ [(p0, c)]) else ([(k, p0)], acc) := by
      simp [clone_step, hk c]
    rw [hstep]
    by_cases hf : far_apart bs mb p0 c = true
    · rw [if_pos hf, ih, List.filter_cons, if_pos hf]
      simp
    · rw [if_neg (by simp [hf]), ih, List.filter_cons, if_neg (by simp [hf])]

theorem detect_clone_const (w h bs mb : ℕ) (hash : ℕ × ℕ → ℕ) (k : ℕ)
    (hk : ∀ c, hash c = k) (rest : List (ℕ × ℕ))
    (hcoords : block_coords w h bs = (0, 0) :: rest) :
    detect_clone_regions hash w h bs mb =
      ((rest.filter fun c => far_apart bs mb (0, 0) c).map fun c => ((0, 0), c)).take 10 := by
  unfold detect_clone_regions
  rw [hcoords, List.foldl_cons]
  have hfirst : clone_step bs mb hash ([], []) (0, 0) = ([(k, (0, 0))], []) := by
    simp [clone_step, hk]
  rw [hfirst, clone_fold_const bs mb k hash hk]
  simp

/-- C7: on a fully uniform image (constant block hash), if the block grid
has two blocks whose top-left corners are more than
`clone_block_size * clone_distance_min_blocks = 64` pixels apart, clone
detection reports at least one pair and the CLONE_DETECTED indicator is
emitted. -/
theorem C7_uniform_image_clone (w h : ℕ) (hash : ℕ × ℕ → ℕ)
    (hconst : ∀ c c', hash c = hash c')
    (p q : ℕ × ℕ)
    (hp : p ∈ block_coords w h 32) (hq : q ∈ block_coords w h 32)
    (hfar : ((32:ℤ) * 2) ^ 2 < ((p.1 : ℤ) - q.1) ^ 2 + ((p.2 : ℤ) - q.2) ^ 2) :
    detect_clone_regions hash w h 32 2 ≠ [] ∧
    ∀ d : ForensicDetections,
      d.clone_regions = detect_clone_regions hash w h 32 2 →
      ForensicIndicator.clone_detected d.clone_regions.length ∈
        deep_forensic_inspection d := by
  obtain ⟨rest, hcoords⟩ := block_coords_cons w h 32
  have hdet := detect_clone_const w h 32 2 hash (hash (0, 0))
    (fun c => hconst c (0, 0)) rest hcoords
  have h32 : max 1 32 = 32 := rfl
  set mx := 32 * ((max 1 (w - 32) + 31) / 32 - 1) with hmx
  set my := 32 * ((max 1 (h - 32) + 31) / 32 - 1) with hmy
  have hmx_mem : mx ∈ py_range (max 1 (w - 32)) 32 := by
    have := max_mem_py_range (max 1 (w - 32)) 32 (by omega) (by norm_num)
    simpa using this
  have hmy_mem : my ∈ py_range (max 1 (h - 32)) 32 := by
    have := max_mem_py_range (max 1 (h - 32)) 32 (by omega) (by norm_num)
    simpa using this
  have hcmem : (mx, my) ∈ block_coords w h 32 := by
    rw [mem_block_coords, h32]
    exact ⟨hmx_mem, hmy_mem⟩
  have hp1 : p.1 ≤ mx := by
    have := (mem_block_coords w h 32 p).1 hp
    have := mem_py_range_le _ _ _ this.1
    simpa using this
  have hq1 : q.1 ≤ mx := by
    have := (mem_block_coords w h 32 q).1 hq
    have := mem_py_range_le _ _ _ this.1
    simpa using this
  have hp2 : p.2 ≤ my := by
    have := (mem_block_coords w h 32 p).1 hp
    have := mem_py_range_le _ _ _ this.2
    simpa using this
  have hq2 : q.2 ≤ my := by
    have := (mem_block_coords w h 32 q).1 hq
    have := mem_py_range_le _ _ _ this.2
    simpa using this
  have hsq1 : ((p.1 : ℤ) - q.1) ^ 2 ≤ (mx : ℤ) ^ 2 := by
    have h1 : ((p.1 : ℤ)) ≤ mx := by exact_mod_cast hp1
    have h2 : ((q.1 : ℤ)) ≤ mx := by exact_mod_cast hq1
    have h3 : (0:ℤ) ≤ p.1 := Int.natCast_nonneg _
    have h4 : (0:ℤ) ≤ q.1 := Int.natCast_nonneg _
    exact sq_le_sq' (by linarith) (by linarith)
  have hsq2 : ((p.2 : ℤ) - q.2) ^ 2 ≤ (my : ℤ) ^ 2 := by
    have h1 : ((p.2 : ℤ)) ≤ my := by exact_mod_cast hp2
    have h2 : ((q.2 : ℤ)) ≤ my := by exact_mod_cast hq2
    have h3 : (0:ℤ) ≤ p.2 := Int.natCast_nonneg _
    have h4 : (0:ℤ) ≤ q.2 := Int.natCast_nonneg _
    exact sq_le_sq' (by linarith) (by linarith)
  have hineq : ((32:ℤ) * 2) ^ 2 < (mx : ℤ) ^ 2 + (my : ℤ) ^ 2 := by linarith
  have hfar0 : far_apart 32 2 (0, 0) (mx, my) = true := by
    simp only [far_apart, decide_eq_true_eq]
    push_cast
    push_cast at hineq
    linarith
  have hne0 : ((mx, my) : ℕ × ℕ) ≠ (0, 0) := by
    intro he
    have hx0 : mx = 0 := congrArg Prod.fst he
    have hy0 : my = 0 := congrArg Prod.snd he
    rw [hx0, hy0] at hineq
    norm_num at hineq
  have hrest : (mx, my) ∈ rest := by
    have hmem := hcmem
    rw [hcoords] at hmem
    rcases List.mem_cons.1 hmem with he | hr
    · exact absurd he hne0
    · exact hr
  have hnonempty : detect_clone_regions hash w h 32 2 ≠ [] := by
    rw [hdet]
    intro hnil
    rw [List.take_eq_nil_iff] at hnil
    rcases hnil with h10 | hmapnil
    · norm_num at h10
    · rw [List.map_eq_nil_iff] at hmapnil
      have : (mx, my) ∈ rest.filter fun c => far_apart 32 2 (0, 0) c :=
        List.mem_filter.2 ⟨hrest, hfar0⟩
      rw [hmapnil] at this
      simp at this
  refine ⟨hnonempty, ?_⟩
  intro d hd
  have hne : d.clone_regions.isEmpty = false := by
    rw [hd]
    rcases he : (detect_clone_regions hash w h 32 2).isEmpty with _ | _
    · rfl
    · exact absurd (List.isEmpty_iff.1 he) hnonempty
  unfold deep_forensic_inspection
  rw [hne]
  simp

/-- Witness for `C7_uniform_image_clone`: a 161×33 uniform image whose
grid spans blocks (0,0) … (128,0); blocks (0,0) and (96,0) are 96 > 64
pixels apart, and clone detection fires. -/
theorem C7_uniform_image_clone_witness :
    ((0, 0) ∈ block_coords 161 33 32) ∧ ((96, 0) ∈ block_coords 161 33 32) ∧
    (((32:ℤ) * 2) ^ 2 <
      ((((0, 0) : ℕ × ℕ).1 : ℤ) - (((96, 0) : ℕ × ℕ).1 : ℤ)) ^ 2 +
      ((((0, 0) : ℕ × ℕ).2 : ℤ) - (((96, 0) : ℕ × ℕ).2 : ℤ)) ^ 2) ∧
    detect_clone_regions (fun _ => 0) 161 33 32 2 ≠ [] ∧
    ForensicIndicator.clone_detected
        (ForensicDetections.mk (detect_clone_regions (fun _ => 0) 161 33 32 2)
          false false true false false).clone_regions.length ∈
      deep_forensic_inspection
        (ForensicDetections.mk (detect_clone_regions (fun _ => 0) 161 33 32 2)
          false false true false false) :=
  ⟨by decide, by decide, by decide,
    (C7_uniform_image_clone 161 33 (fun _ => 0) (fun _ _ => rfl) (0, 0) (96, 0)
      (by decide) (by decide) (by decide)).1,
    (C7_uniform_image_clone 161 33 (fun _ => 0) (fun _ _ => rfl) (0, 0) (96, 0)
      (by decide) (by decide) (by decide)).2
      (ForensicDetections.mk (detect_clone_regions (fun _ => 0) 161 33 32 2)
        false false true false false) rfl⟩

end ImageAnalysis
